import Mathlib

/-!
Formal model of the AI-weather-chat-bot HTTP weather service
(`server.py`, `weather_server_http.py`).

The embedding is shallow: each Python function that the specification
talks about is translated into an executable Lean definition, and the
claims of the specification are settled as theorems about those
definitions.  Machine values are modelled as follows.

* Epoch timestamps are `Int` (seconds since 1970-01-01T00:00:00Z).
* A time zone (`pytz` zone object) is a structure `TZ` carrying the zone
  name and its UTC-offset rule: a function from the instant to the offset
  in seconds east of UTC.  This captures `astimezone`, DST included,
  without committing to a particular zone database.
* A local calendar date (the `strftime` string `%Y-%m-%d` used by the
  code as a dictionary key and sort key) is modelled by the local day
  number: `(t + offset t).fdiv 86400`.  For the timestamps the provider
  delivers (years 1000 to 9999) the zero-padded ISO date strings compare
  lexicographically exactly as the day numbers compare numerically, so
  dictionary keying and `sorted(...)` on the strings agree with keying
  and sorting on day numbers.
* Floating point payload values (temperatures and so on) are carried as
  `Int`; the program never computes with them, it only formats them.
-/

namespace WeatherBot

/-- Named civil time zone: the zone name (`LOCAL_TIMEZONE.zone`) together
with its offset rule, in seconds east of UTC, as a function of the UTC
instant (this is what `datetime.astimezone` applies, DST included). -/
structure TZ where
  name : String
  utcOffset : Int → Int

/-- The UTC zone (`pytz.timezone "UTC"`). -/
def utcZone : TZ := ⟨"UTC", fun _ => 0⟩

/-- Fixed-offset model of `pytz.timezone "Asia/Kolkata"` (UTC+05:30),
the default zone of `weather_server_http.py`. -/
def istZone : TZ := ⟨"Asia/Kolkata", fun _ => 19800⟩

/-- Local calendar date, as a day number since 1970-01-01, of the instant
`t` in zone `z`.  This models
`datetime.fromtimestamp(t, tz=timezone.utc).astimezone(z).strftime("%Y-%m-%d")`:
the code uses the ISO date string, which orders and compares exactly like
the day number for the dates involved. -/
def localDate (z : TZ) (t : Int) : Int :=
  (t + z.utcOffset t).fdiv 86400

/-- Local civil date and wall-clock time produced by the time normalizer
(`datetime.fromtimestamp(t, tz=timezone.utc).astimezone(LOCAL_TIMEZONE)`),
together with the UTC offset in force at that instant. -/
structure LocalTime where
  dayNumber : Int
  hour : Nat
  minute : Nat
  second : Nat
  offset : Int
deriving DecidableEq, Repr

/-- Convert an epoch timestamp to local civil time in zone `z`; this is
the Time Normalizer of the specification, embedding
`weather_server_http.py` line 286. -/
def toLocalTime (z : TZ) (t : Int) : LocalTime :=
  let off := z.utcOffset t
  let shifted := t + off
  let sod := (shifted.fmod 86400).toNat
  ⟨shifted.fdiv 86400, sod / 3600, sod % 3600 / 60, sod % 60, off⟩

/-- Reinterpret a reported local civil time as a UTC epoch timestamp
using the reported offset (the round-trip direction of the claim about
the normalizer; the code itself only goes the other way). -/
def utcOfLocal (lt : LocalTime) : Int :=
  86400 * lt.dayNumber + ((3600 * lt.hour + 60 * lt.minute + lt.second : Nat) : Int) - lt.offset

/-- ASCII digit character for `d % 10`. -/
def digitChar (d : Nat) : Char := Char.ofNat (48 + d % 10)

/-- Numeric value of an ASCII digit character. -/
def digitVal (c : Char) : Nat := c.toNat - 48

/-- Zero-padded two-digit rendering (the field width used by `strftime`). -/
def twoDigit (n : Nat) : List Char := [digitChar (n / 10), digitChar n]

/-- Character list produced by `strftime("%z")` on an aware datetime with
UTC offset `off` seconds: sign, two hour digits, two minute digits, and
two further digits only when the offset has a seconds component. -/
def zFormatChars (off : Int) : List Char :=
  let a := off.natAbs
  (if off < 0 then [Char.ofNat 45] else [Char.ofNat 43])
    ++ twoDigit (a / 3600) ++ twoDigit (a % 3600 / 60)
    ++ (if a % 60 = 0 then [] else twoDigit (a % 60))

/-- The displayed offset string: the code takes the `%z` string and
splices a colon after the third character
(`f"{utc_offset[:3]}:{utc_offset[3:]}"`, `weather_server_http.py`
line 297). -/
def formattedOffset (off : Int) : String :=
  let s := zFormatChars off
  String.mk (s.take 3 ++ [Char.ofNat 58] ++ s.drop 3)

/-- Read a `±HH:MM` offset character list back into seconds. -/
def parseOffsetChars : List Char → Int
  | [sg, h1, h2, _, m1, m2] =>
    if sg = Char.ofNat 45 then
      -(((10 * digitVal h1 + digitVal h2) * 3600 + (10 * digitVal m1 + digitVal m2) * 60 : Nat) : Int)
    else ((10 * digitVal h1 + digitVal h2) * 3600 + (10 * digitVal m1 + digitVal m2) * 60 : Nat)
  | _ => 0

/-- Read a `±HH:MM` offset string back into seconds (used to state that
the reported offset string is consistent with the offset the zone rule
assigns to the instant). -/
def parseOffset (s : String) : Int := parseOffsetChars s.toList

/-- Output of the time normalizer as used by `get_current_weather`
(lines 286 and 297): the converted local civil time and the formatted
offset string. -/
def normalizeTimestamp (z : TZ) (t : Int) : LocalTime × String :=
  (toLocalTime z t, formattedOffset (z.utcOffset t))

/-- One 3-hour forecast sample from the provider: the fields of an
element of `data["list"]` that the code reads.  Numeric payloads are
carried as `Int`; the program only formats them. -/
structure ForecastSample where
  dt : Int
  temp : Int
  feelsLike : Int
  description : String
  humidity : Int
  pressure : Int
deriving DecidableEq, Repr

/-- Local calendar date of a forecast sample. -/
def sampleDate (z : TZ) (s : ForecastSample) : Int := localDate z s.dt

/-- The grouping loop of `get_weather_forecast` (lines 445 to 458): walk
the samples in order; a sample whose local date is not yet a key is
appended as a new bucket (Python dictionaries preserve insertion order),
later samples with an already-seen date are dropped, and the loop breaks
once five buckets exist. -/
def bucketLoop (z : TZ) : List ForecastSample → List (Int × ForecastSample) → List (Int × ForecastSample)
  | [], acc => acc
  | item :: rest, acc =>
    let date := sampleDate z item
    if (acc.map Prod.fst).contains date then
      bucketLoop z rest acc
    else
      let acc2 := acc ++ [(date, item)]
      if 5 ≤ acc2.length then acc2 else bucketLoop z rest acc2

/-- Key order used by `sorted(daily_forecasts.items())`: ascending date.
The Python sort compares the ISO date strings, which for these dates is
the numeric order of the day numbers; ties cannot occur because the keys
come from a dictionary. -/
def keyLE (p q : Int × ForecastSample) : Prop := p.1 ≤ q.1

instance : DecidableRel keyLE := fun p q => Int.decLe p.1 q.1

instance : IsTotal (Int × ForecastSample) keyLE := ⟨fun p q => Int.le_total p.1 q.1⟩

instance : IsTrans (Int × ForecastSample) keyLE := ⟨fun _ _ _ h h2 => le_trans h h2⟩

/-- The forecast bucketizer: group the samples by local date keeping the
first sample seen per date, cap at five buckets, then sort the buckets by
date (`sorted(daily_forecasts.items())`, line 461). -/
def bucketize (z : TZ) (samples : List ForecastSample) : List (Int × ForecastSample) :=
  List.insertionSort keyLE (bucketLoop z samples [])

/-! String helpers modelling the Python string methods the code uses.
Python `str.strip` removes Unicode whitespace; the values the code strips
are environment variables and regex captures, for which the ASCII
whitespace recognised by `Char.isWhitespace` is the relevant set. -/

/-- Python `s.strip()`. -/
def pyStrip (s : String) : String :=
  String.mk (((s.toList.dropWhile Char.isWhitespace).reverse.dropWhile Char.isWhitespace).reverse)

/-- Python `needle in hay` on strings: some suffix of `hay` starts with
`needle`. -/
def listContainsSub (hay needle : List Char) : Bool :=
  if needle.isPrefixOf hay then true
  else
    match hay with
    | [] => false
    | _ :: t => listContainsSub t needle

/-- Python substring containment `needle in hay`. -/
def containsSub (hay needle : String) : Bool :=
  listContainsSub hay.toList needle.toList

/-- Python `s.split(sep, 1)[1]` when `sep` occurs in `s`: everything
after the first occurrence of `sep`. -/
def afterFirst (sep s : String) : String :=
  match s.splitOn sep with
  | [] => s
  | _ :: rest => String.intercalate sep rest

/-- Helper for `pySplitWS`: accumulate the current word (reversed) and
emit it at each whitespace run or at the end. -/
def splitWSGo : List Char → List Char → List String
  | [], cur => if cur = [] then [] else [String.mk cur.reverse]
  | c :: cs, cur =>
    if c.isWhitespace then
      (if cur = [] then [] else [String.mk cur.reverse]) ++ splitWSGo cs []
    else splitWSGo cs (c :: cur)

/-- Python `s.split()`: split on whitespace runs, dropping empty pieces. -/
def pySplitWS (s : String) : List String := splitWSGo s.toList []

/-- Python `s.capitalize()`: first character upper-cased, the rest
lower-cased. -/
def pyCapitalize (s : String) : String :=
  match s.toList with
  | [] => ""
  | c :: cs => String.mk (c.toUpper :: cs.map Char.toLower)

/-- Helper for `pyTitle`: the Boolean records whether the previous
character was alphabetic. -/
def pyTitleGo : Bool → List Char → List Char
  | _, [] => []
  | prevAlpha, c :: cs =>
    (if c.isAlpha then (if prevAlpha then c.toLower else c.toUpper) else c)
      :: pyTitleGo c.isAlpha cs

/-- Python `s.title()` (ASCII): upper-case the first letter of every
alphabetic run, lower-case the rest. -/
def pyTitle (s : String) : String := String.mk (pyTitleGo false s.toList)

/-! Rendering helpers modelling the `strftime` fields the code formats.
These only shape display strings; no claim depends on their values. -/

/-- Zero-padded two-digit decimal string. -/
def pad2 (n : Nat) : String := (if n < 10 then "0" else "") ++ toString n

/-- Weekday name (`strftime("%A")`); day 0, 1970-01-01, was a Thursday. -/
def weekdayName (day : Int) : String :=
  (["Sunday", "Monday", "Tuesday", "Wednesday", "Thursday", "Friday", "Saturday"].getD
    ((day + 4).emod 7).toNat "")

/-- Abbreviated month name (`strftime("%b")`), 1-based. -/
def monthName (m : Nat) : String :=
  (["Jan", "Feb", "Mar", "Apr", "May", "Jun", "Jul", "Aug", "Sep", "Oct", "Nov", "Dec"].getD
    (m - 1) "")

/-- Gregorian civil date (year, month, day) of a day number since
1970-01-01, by the standard days-from-civil inversion. -/
def civilFromDays (day : Int) : Int × Nat × Nat :=
  let z := day + 719468
  let era := z.fdiv 146097
  let doe := (z.fmod 146097).toNat
  let yoe := (doe - doe / 1460 + doe / 36524 - doe / 146096) / 365
  let doy := doe - (365 * yoe + yoe / 4 - yoe / 100)
  let mp := (5 * doy + 2) / 153
  let d := doy - (153 * mp + 2) / 5 + 1
  let m := if mp < 10 then mp + 3 else mp - 9
  (era * 400 + (yoe : Int) + (if m ≤ 2 then 1 else 0), m, d)

/-- ISO date string `strftime("%Y-%m-%d")` of a local day number. -/
def isoDate (day : Int) : String :=
  match civilFromDays day with
  | (y, m, d) => toString y ++ "-" ++ pad2 m ++ "-" ++ pad2 d

/-- Date string `strftime("%d %b %Y")` of a local day number. -/
def dmyDate (day : Int) : String :=
  match civilFromDays day with
  | (y, m, d) => pad2 d ++ " " ++ monthName m ++ " " ++ toString y

/-- Clock string `strftime("%H:%M")`. -/
def fmt24h (h m : Nat) : String := pad2 h ++ ":" ++ pad2 m

/-- Clock string `strftime("%I:%M %p")` (12-hour with AM or PM). -/
def fmt12h (h m : Nat) : String :=
  pad2 (if h % 12 = 0 then 12 else h % 12) ++ ":" ++ pad2 m
    ++ (if h < 12 then " AM" else " PM")

/-- Timestamp string `strftime("%Y-%m-%d %H:%M:%S")`. -/
def fmtDateTime (lt : LocalTime) : String :=
  isoDate lt.dayNumber ++ " " ++ pad2 lt.hour ++ ":" ++ pad2 lt.minute ++ ":" ++ pad2 lt.second

/-- Aware `datetime.isoformat()`: date, `T`, time, and the UTC offset. -/
def isoDateTime (lt : LocalTime) : String :=
  isoDate lt.dayNumber ++ "T" ++ pad2 lt.hour ++ ":" ++ pad2 lt.minute ++ ":" ++ pad2 lt.second
    ++ formattedOffset lt.offset

/-! The OpenWeatherMap API credential handling
(`weather_server_http.py` lines 31 to 44 and 246 to 254). -/

/-- The hardcoded fallback key from lines 251 and 416. -/
def fallbackApiKey : String := "7d5a7721a05e40f05897a8da9a3f05cd"

/-- Module-level cleanup of the raw `OPENWEATHER_API_KEY` environment
value (lines 31 to 42): strip it, and when the variable name leaked into
the value, keep only what follows the first equals sign, stripped again.
`none` models an unset variable. -/
def moduleApiKey (raw : Option String) : Option String :=
  match raw with
  | none => none
  | some k =>
    let k1 := pyStrip k
    if containsSub k1 "OPENWEATHER_API_KEY=" then pyStrip (afterFirst "=" k1)
    else k1

/-- Per-request key selection shared by `get_current_weather` (lines 248
to 254) and `get_weather_forecast` (lines 413 to 419): when the module
key is unset, empty, or strips to fewer than 20 characters, substitute
the hardcoded key; finally strip. -/
def effectiveApiKey (moduleKey : Option String) : String :=
  pyStrip (match moduleKey with
    | none => fallbackApiKey
    | some s => if s = "" ∨ (pyStrip s).length < 20 then fallbackApiKey else s)

/-- Query parameters of the current-weather request (lines 260 to 264). -/
def currentWeatherParams (moduleKey : Option String) (city : String) : List (String × String) :=
  [("q", city), ("appid", effectiveApiKey moduleKey), ("units", "metric")]

/-- Query parameters of the forecast request (lines 424 to 428). -/
def forecastParams (moduleKey : Option String) (city : String) : List (String × String) :=
  [("q", city), ("appid", effectiveApiKey moduleKey), ("units", "metric")]

/-- Condition on the configured credential under which both tool
functions fall back to the hardcoded key: unset, or stripping to fewer
than 20 characters. -/
def credentialWeak (raw : Option String) : Bool :=
  match raw with
  | none => true
  | some s => (pyStrip s).length < 20

/-! The outbound HTTP call and the two tool functions. -/

/-- Outcome of `requests.get` on the provider URL: either the request
itself failed (`requests.RequestException` raised before a response
exists, covering an unreachable upstream), or a response arrived with a
status code and, for the statuses the code goes on to read, the parsed
JSON body of the fixed provider schema. -/
inductive FetchOutcome (α : Type) where
  | connError (msg : String)
  | response (status : Nat) (body : α)
deriving DecidableEq, Repr

/-- Statuses for which `response.raise_for_status()` raises
`requests.exceptions.HTTPError`, a `RequestException`: the 4xx and 5xx
ranges. -/
def isRequestFailure {α : Type} : FetchOutcome α → Bool
  | .connError _ => true
  | .response s _ => decide (400 ≤ s ∧ s < 600)

/-- Message text of the `HTTPError` that `raise_for_status` raises; the
claims only depend on it being a string, not on its exact shape. -/
def httpErrorMsg (status : Nat) : String :=
  toString status ++ " Error for url: http://api.openweathermap.org"

/-- Parsed body of the current-weather endpoint: the fields of the JSON
document that `get_current_weather` reads. -/
structure OWMCurrent where
  dt : Int
  name : String
  country : String
  temp : Int
  feelsLike : Int
  description : String
  humidity : Int
  pressure : Int
  windSpeed : Int
deriving DecidableEq, Repr

/-- Parsed body of the forecast endpoint: city block plus the ordered
sample list. -/
structure OWMForecast where
  cityName : String
  country : String
  list : List ForecastSample
deriving DecidableEq, Repr

/-- The `weather_info` dictionary built by `get_current_weather`
(lines 299 to 312).  The Python key `timezone` is spelled
`timezoneName` here. -/
structure CurrentData where
  city : String
  country : String
  temperature : String
  feels_like : String
  condition : String
  humidity : String
  pressure : String
  wind_speed : String
  timestamp : String
  timezoneName : String
  formatted_time : String
  timezone_offset : String
deriving DecidableEq, Repr

/-- One element of `data["forecasts"]` in the forecast result
(lines 498 to 509). -/
structure ForecastEntry where
  date : String
  day : String
  time : String
  time_12h : String
  temperature : String
  description : String
  timestamp_utc : Int
  formatted_datetime : String
deriving DecidableEq, Repr

/-- The `data` dictionary of the forecast result (lines 493 to 510). -/
structure ForecastData where
  city : String
  country : String
  timezoneName : String
  timezone_offset : String
  forecasts : List ForecastEntry
deriving DecidableEq, Repr

/-- Dictionary returned by either tool function: the `success` flag, the
`error` string of the failure shape, the `data` payload of whichever
success shape applies, and the `formatted_response` text. -/
structure ToolResult where
  success : Bool
  error : Option String
  current : Option CurrentData
  forecast : Option ForecastData
  formatted_response : String
deriving DecidableEq, Repr

/-- Failure value returned by `get_current_weather` when a
`requests.RequestException` is caught (lines 339 to 344). -/
def currentFailure (city msg : String) : ToolResult :=
  { success := false
    error := some ("Failed to fetch weather data: " ++ msg)
    current := none
    forecast := none
    formatted_response :=
      "Sorry, I couldn\x27t get weather data for " ++ city
        ++ ". Please check the city name and try again." }

/-- Failure value returned by `get_weather_forecast` when a
`requests.RequestException` is caught (lines 514 to 519). -/
def forecastFailure (city msg : String) : ToolResult :=
  { success := false
    error := some ("Failed to fetch forecast data: " ++ msg)
    current := none
    forecast := none
    formatted_response := "Sorry, I couldn\x27t get forecast data for " ++ city ++ "." }

/-- The success text of `get_current_weather` (lines 326 to 336). -/
def currentFormatted (z : TZ) (info : CurrentData) (lt : LocalTime) (fo : String) : String :=
  "🌤️ Current Weather for " ++ info.city ++ ", " ++ info.country ++ ":\n\n"
    ++ "🌡️ Temperature: " ++ info.temperature ++ " (feels like " ++ info.feels_like ++ ")\n"
    ++ "☁️ Condition: " ++ info.condition ++ "\n"
    ++ "💧 Humidity: " ++ info.humidity ++ "\n"
    ++ "🌪️ Pressure: " ++ info.pressure ++ "\n"
    ++ "💨 Wind Speed: " ++ info.wind_speed ++ "\n\n"
    ++ "📅 " ++ weekdayName lt.dayNumber ++ ", " ++ dmyDate lt.dayNumber ++ "\n"
    ++ "⏰ Local time: " ++ fmt12h lt.hour lt.minute ++ "\n"
    ++ "🌐 Timezone: " ++ z.name ++ " (UTC" ++ fo ++ ")"

/-- `get_current_weather` (lines 240 to 344).  The outbound call is the
`fetch` argument; a connection failure or an error status takes the
`except requests.RequestException` path, otherwise the body is formatted
through the time normalizer. -/
def getCurrentWeather (z : TZ) (city : String) (fetch : FetchOutcome OWMCurrent) : ToolResult :=
  match fetch with
  | .connError msg => currentFailure city msg
  | .response status body =>
    if 400 ≤ status ∧ status < 600 then currentFailure city (httpErrorMsg status)
    else
      let lt := toLocalTime z body.dt
      let fo := formattedOffset (z.utcOffset body.dt)
      let info : CurrentData :=
        { city := body.name
          country := body.country
          temperature := toString body.temp ++ "°C"
          feels_like := toString body.feelsLike ++ "°C"
          condition := pyTitle body.description
          humidity := toString body.humidity ++ "%"
          pressure := toString body.pressure ++ " hPa"
          wind_speed := toString body.windSpeed ++ " m/s"
          timestamp := isoDateTime lt
          timezoneName := z.name
          formatted_time := fmtDateTime lt
          timezone_offset := fo }
      { success := true
        error := none
        current := some info
        forecast := none
        formatted_response := currentFormatted z info lt fo }

/-- One block of the forecast text (lines 480 to 485). -/
def forecastLine (z : TZ) (p : Int × ForecastSample) : String :=
  let lt := toLocalTime z p.2.dt
  "🗓️ " ++ weekdayName lt.dayNumber ++ ", " ++ dmyDate lt.dayNumber ++ ":\n"
    ++ "  🌡️ Temperature: " ++ toString p.2.temp ++ "°C (feels like "
    ++ toString p.2.feelsLike ++ "°C)\n"
    ++ "  ☁️ Condition: " ++ pyTitle p.2.description ++ "\n"
    ++ "  💧 Humidity: " ++ toString p.2.humidity ++ "%\n"
    ++ "  🌪️ Pressure: " ++ toString p.2.pressure ++ " hPa\n"
    ++ "  ⏰ Time: " ++ fmt12h lt.hour lt.minute ++ " (" ++ z.name ++ ")\n\n"

/-- One element of `data["forecasts"]` (lines 499 to 508). -/
def forecastEntry (z : TZ) (p : Int × ForecastSample) : ForecastEntry :=
  let lt := toLocalTime z p.2.dt
  { date := isoDate p.1
    day := weekdayName lt.dayNumber
    time := fmt24h lt.hour lt.minute
    time_12h := fmt12h lt.hour lt.minute
    temperature := toString p.2.temp ++ "°C"
    description := pyTitle p.2.description
    timestamp_utc := p.2.dt
    formatted_datetime := fmtDateTime lt }

/-- `get_weather_forecast` (lines 408 to 519).  `now` is the current
instant, read by `datetime.now(LOCAL_TIMEZONE)` to display the offset in
force at request time (line 438). -/
def getWeatherForecast (z : TZ) (now : Int) (city : String)
    (fetch : FetchOutcome OWMForecast) : ToolResult :=
  match fetch with
  | .connError msg => forecastFailure city msg
  | .response status body =>
    if 400 ≤ status ∧ status < 600 then forecastFailure city (httpErrorMsg status)
    else
      let fo := formattedOffset (z.utcOffset now)
      let buckets := bucketize z body.list
      let header := "📅 5-Day Weather Forecast for " ++ body.cityName ++ ", "
        ++ body.country ++ ":\n\n"
      let text := buckets.foldl (fun acc p => acc ++ forecastLine z p) header
        ++ "All times shown in " ++ z.name ++ " (UTC" ++ fo ++ ")."
      { success := true
        error := none
        current := none
        forecast := some
          { city := body.cityName
            country := body.country
            timezoneName := z.name
            timezone_offset := fo
            forecasts := buckets.map (forecastEntry z) }
        formatted_response := text }

/-! The tool-dispatch endpoint `POST /tools/execute` (lines 215 to 238). -/

/-- Result of the endpoint as seen by the HTTP client: a JSON body with
status 200, or an `HTTPException` with a status code and detail string. -/
inductive ExecResult where
  | ok (status : Nat) (body : ToolResult)
  | httpError (status : Nat) (detail : String)
deriving DecidableEq, Repr

/-- Python `parameters["city"]` on the request parameters, modelled as an
association list; `none` is the `KeyError` case. -/
def lookupParam (params : List (String × String)) (key : String) : Option String :=
  match params.find? (fun p => p.1 = key) with
  | some p => some p.2
  | none => none

/-- `execute_tool` (lines 215 to 238).  Everything raised inside the
`try` block is caught by the blanket `except Exception` and re-raised as
`HTTPException(500, str(e))`.  In particular the
`HTTPException(status_code=400, ...)` raised for an unknown tool name is
itself an `Exception`, so it is intercepted and surfaces as a 500 whose
detail is `str` of the caught exception (`"400: Unknown tool: ..."` in
Starlette rendering), and a missing `"city"` key raises
`KeyError("city")`, whose `str` is the quoted key, likewise mapped
to 500. -/
def executeTool (z : TZ) (now : Int) (tool_name : String)
    (parameters : List (String × String)) (fetchCur : FetchOutcome OWMCurrent)
    (fetchFc : FetchOutcome OWMForecast) : ExecResult :=
  if tool_name = "get_weather" then
    match lookupParam parameters "city" with
    | some city => .ok 200 (getCurrentWeather z city fetchCur)
    | none => .httpError 500 "\x27city\x27"
  else if tool_name = "get_forecast" then
    match lookupParam parameters "city" with
    | some city => .ok 200 (getWeatherForecast z now city fetchFc)
    | none => .httpError 500 "\x27city\x27"
  else
    .httpError 500 ("400: Unknown tool: " ++ tool_name)

/-! Startup time-zone validation (`server.py` lines 15 to 93 and
`weather_server_http.py` lines 53 to 54). -/

/-- `validate_timezone` from `server.py`: an unset or empty `TIMEZONE`
defaults to UTC; otherwise `pytz.timezone` is attempted and any failure
(`UnknownTimeZoneError` or other) falls back to UTC with a warning.  The
zone database `db` models `pytz.timezone` as a partial lookup. -/
def validate_timezone (db : String → Option TZ) (envTZ : Option String) : String :=
  match envTZ with
  | none => "UTC"
  | some tname =>
    if tname = "" then "UTC"
    else if (db tname).isSome then tname else "UTC"

/-- `start_server` writes the validated name back into the environment,
and the imported server module binds
`LOCAL_TIMEZONE = pytz.timezone(os.getenv("TIMEZONE", ...).strip())`
(`weather_server_http.py` lines 53 to 54). -/
def serverStartup (db : String → Option TZ) (envTZ : Option String) : Option TZ :=
  db (pyStrip (validate_timezone db envTZ))

/-! City extraction from free text (`extract_city_from_message`,
lines 381 to 406).  The six regular expressions are built from literals,
alternations of literals, a single greedy capturing group
`([A-Za-z\s]+)`, and the tail `(?:\?|$|\.)`; the matcher below
implements exactly those constructs with the backtracking and
leftmost-search semantics of `re.search`. -/

/-- Syntax of the pattern fragments the six patterns use.  `capTry k` is
an internal state of the matcher (the greedy group in the middle of
backtracking from capture length `k`); source patterns only use the
other four constructors. -/
inductive RE where
  | lit (s : String)
  | alts (ss : List String)
  | cap
  | capTry (k : Nat)
  | tailEnd
deriving Repr

/-- Characters matched by the class `[A-Za-z\s]`. -/
def classChar (c : Char) : Bool :=
  c.isAlpha || c = ' ' || c = Char.ofNat 9 || c = Char.ofNat 10
    || c = Char.ofNat 13 || c = Char.ofNat 11 || c = Char.ofNat 12

/-- Match the pattern fragments at the start of `cs`, returning the text
of the capturing group on success.  Alternations and the greedy group
backtrack exactly as the regex engine does: alternatives are tried in
written order, the group tries its longest run of class characters first
and shrinks on failure (`+` needs at least one character), and the tail
`(?:\?|$|\.)` tries a question mark, end of input, then a dot.  The
`fuel` argument only bounds the backtracking depth so that the function
is structurally recursive; `reSearch` supplies more than enough. -/
def matchSeq : Nat → List RE → List Char → Option String → Option String
  | 0, _, _, _ => none
  | Nat.succ fuel, items, cs, acc =>
    match items with
    | [] => acc
    | .lit s :: rest =>
      if s.toList.isPrefixOf cs then matchSeq fuel rest (cs.drop s.toList.length) acc else none
    | .alts [] :: _ => none
    | .alts (s :: ss) :: rest =>
      match (if s.toList.isPrefixOf cs then matchSeq fuel rest (cs.drop s.toList.length) acc
             else none) with
      | some r => some r
      | none => matchSeq fuel (.alts ss :: rest) cs acc
    | .cap :: rest => matchSeq fuel (.capTry (cs.takeWhile classChar).length :: rest) cs acc
    | .capTry 0 :: _ => none
    | .capTry (Nat.succ l) :: rest =>
      match matchSeq fuel rest (cs.drop (l + 1)) (some (String.mk (cs.take (l + 1)))) with
      | some r => some r
      | none => matchSeq fuel (.capTry l :: rest) cs acc
    | .tailEnd :: rest =>
      match cs with
      | [] => matchSeq fuel rest [] acc
      | c :: cs2 =>
        match (if c = Char.ofNat 63 then matchSeq fuel rest cs2 acc else none) with
        | some r => some r
        | none => if c = Char.ofNat 46 then matchSeq fuel rest cs2 acc else none

/-- Fuel amply covering the backtracking depth of the six patterns on an
input of this length. -/
def matchFuel (cs : List Char) : Nat := cs.length + 64

/-- `re.search`: try a match at every start position, leftmost first,
including the empty suffix. -/
def reSearch (items : List RE) : List Char → Option String
  | [] => matchSeq (matchFuel []) items [] none
  | c :: t =>
    match matchSeq (matchFuel (c :: t)) items (c :: t) none with
    | some r => some r
    | none => reSearch items t

/-- Pattern `weather (?:in|at|for) ([A-Za-z\s]+)(?:\?|$|\.)`. -/
def pat1 : List RE := [.lit "weather ", .alts ["in", "at", "for"], .lit " ", .cap, .tailEnd]

/-- Pattern `(?:in|at) ([A-Za-z\s]+) (?:weather|temperature|forecast)(?:\?|$|\.)`. -/
def pat2 : List RE :=
  [.alts ["in", "at"], .lit " ", .cap, .lit " ",
   .alts ["weather", "temperature", "forecast"], .tailEnd]

/-- Pattern for the raining-or-sunny phrasings. -/
def pat3 : List RE :=
  [.alts ["will it", "is it", "how is it", "how\x27s"], .lit " ",
   .alts ["raining", "rain", "sunny", "cloudy", "hot", "cold", "warm"], .lit " ",
   .alts ["in", "at"], .lit " ", .cap, .tailEnd]

/-- Pattern `(?:what\x27s|what is) (?:the weather|it) like (?:in|at) ([A-Za-z\s]+)(?:\?|$|\.)`. -/
def pat4 : List RE :=
  [.alts ["what\x27s", "what is"], .lit " ", .alts ["the weather", "it"], .lit " like ",
   .alts ["in", "at"], .lit " ", .cap, .tailEnd]

/-- Pattern `weather (?:of|for) ([A-Za-z\s]+)(?:\?|$|\.)`. -/
def pat5 : List RE := [.lit "weather ", .alts ["of", "for"], .lit " ", .cap, .tailEnd]

/-- Pattern `([A-Za-z\s]+) (?:weather|forecast|temperature)(?:\?|$|\.)`. -/
def pat6 : List RE :=
  [.cap, .lit " ", .alts ["weather", "forecast", "temperature"], .tailEnd]

/-- The ordered pattern list of `extract_city_from_message`. -/
def cityPatterns : List (List RE) := [pat1, pat2, pat3, pat4, pat5, pat6]

/-- Return the capture of the first pattern whose search succeeds. -/
def firstPatternMatch : List (List RE) → List Char → Option String
  | [], _ => none
  | p :: ps, cs =>
    match reSearch p cs with
    | some r => some r
    | none => firstPatternMatch ps cs

/-- The allow-list of city names in the fallback scan (line 403). -/
def knownCities : List String :=
  ["london", "paris", "tokyo", "delhi", "hyderabad", "chennai", "mumbai"]

/-- Fallback scan over whitespace-delimited words (lines 401 to 404):
the first word starting with an upper-case letter or appearing in the
allow-list is returned title-cased. -/
def fallbackScan : List String → Option String
  | [] => none
  | w :: ws =>
    if (w.toList.headD (Char.ofNat 0)).isUpper ∨ w ∈ knownCities then some (pyCapitalize w)
    else fallbackScan ws

/-- `extract_city_from_message`: try the six patterns in order and strip
the first capture; otherwise scan the words; `none` models the Python
`None` that the spec calls the "not found" outcome. -/
def extract_city_from_message (message : String) : Option String :=
  match firstPatternMatch cityPatterns message.toList with
  | some captured => some (pyStrip captured)
  | none => fallbackScan (pySplitWS message)

/-! Theorems.  Each claim of the specification is settled by exactly one
theorem below; shared lemmas precede them. -/

/-- Parsing a digit character produced by `digitChar` recovers the
digit. -/
theorem digitVal_digitChar (d : Nat) : digitVal (digitChar d) = d % 10 := by
  have h : d % 10 < 10 := Nat.mod_lt _ (by omega)
  unfold digitChar digitVal
  set e := d % 10 with he
  interval_cases e <;> rfl

/-- Shape of the `%z` characters for a whole-minute offset. -/
theorem zFormatChars_eq (off : Int) (h60 : off.natAbs % 60 = 0) :
    zFormatChars off = (if off < 0 then Char.ofNat 45 else Char.ofNat 43) ::
      [digitChar (off.natAbs / 3600 / 10), digitChar (off.natAbs / 3600),
       digitChar (off.natAbs % 3600 / 60 / 10), digitChar (off.natAbs % 3600 / 60)] := by
  unfold zFormatChars twoDigit
  by_cases hneg : off < 0 <;> simp [hneg, h60]

/-- Reduction of `parseOffsetChars` on a six-character list. -/
theorem parseOffsetChars_six (sg h1 h2 c m1 m2 : Char) : parseOffsetChars [sg, h1, h2, c, m1, m2] =
    (if sg = Char.ofNat 45
     then -(((10 * digitVal h1 + digitVal h2) * 3600 + (10 * digitVal m1 + digitVal m2) * 60 : Nat) : Int)
     else ((10 * digitVal h1 + digitVal h2) * 3600 + (10 * digitVal m1 + digitVal m2) * 60 : Nat)) := rfl

/-- The formatted `±HH:MM` offset string parses back to the offset, for
any whole-minute offset below 100 hours (every real zone offset). -/
theorem parseOffset_formattedOffset (off : Int) (h60 : off % 60 = 0)
    (hb : off.natAbs < 360000) : parseOffset (formattedOffset off) = off := by
  have ha60 : off.natAbs % 60 = 0 := by omega
  have hfo : formattedOffset off = String.mk
      [(if off < 0 then Char.ofNat 45 else Char.ofNat 43),
       digitChar (off.natAbs / 3600 / 10), digitChar (off.natAbs / 3600), Char.ofNat 58,
       digitChar (off.natAbs % 3600 / 60 / 10), digitChar (off.natAbs % 3600 / 60)] := by
    unfold formattedOffset
    rw [zFormatChars_eq off ha60]
    by_cases hneg : off < 0 <;> simp [hneg]
  rw [hfo]
  show parseOffsetChars
      [(if off < 0 then Char.ofNat 45 else Char.ofNat 43),
       digitChar (off.natAbs / 3600 / 10), digitChar (off.natAbs / 3600), Char.ofNat 58,
       digitChar (off.natAbs % 3600 / 60 / 10), digitChar (off.natAbs % 3600 / 60)] = off
  rw [parseOffsetChars_six]
  simp only [digitVal_digitChar]
  by_cases hneg : off < 0
  · rw [if_pos hneg, if_pos rfl]
    omega
  · rw [if_neg hneg, if_neg (by decide)]
    omega

/-- Recomposing the civil fields of `toLocalTime` with the reported
offset recovers the instant. -/
theorem utcOfLocal_toLocalTime (z : TZ) (t : Int) : utcOfLocal (toLocalTime z t) = t := by
  simp only [toLocalTime, utcOfLocal]
  have h1 : 86400 * ((t + z.utcOffset t).fdiv 86400) + (t + z.utcOffset t).fmod 86400
      = t + z.utcOffset t := Int.fdiv_add_fmod _ 86400
  have h2 : 0 ≤ (t + z.utcOffset t).fmod 86400 := Int.fmod_nonneg' _ (by decide)
  have h3 : (t + z.utcOffset t).fmod 86400 < 86400 := Int.fmod_lt_of_pos _ (by decide)
  omega

/-- C6: for every valid epoch timestamp `t` and zone `z`, the time
normalizer reports the offset that the zone rules of `z` assign to the
instant `t`, its `±HH:MM` offset string parses back to exactly that
offset (whole-minute offsets below 100 hours, which covers every real
zone), and converting the reported local civil time back to UTC using
the reported offset reproduces `t`. -/
theorem normalizer_roundtrip (z : TZ) (t : Int)
    (h60 : z.utcOffset t % 60 = 0) (hb : (z.utcOffset t).natAbs < 360000) :
    (normalizeTimestamp z t).1.offset = z.utcOffset t ∧
    parseOffset (normalizeTimestamp z t).2 = z.utcOffset t ∧
    utcOfLocal (normalizeTimestamp z t).1 = t :=
  ⟨rfl, parseOffset_formattedOffset _ h60 hb, utcOfLocal_toLocalTime z t⟩

/-- Witness for `normalizer_roundtrip` at the configured IST zone and a
concrete instant. -/
theorem normalizer_roundtrip_witness :
    (istZone.utcOffset 1700000000 % 60 = 0 ∧ (istZone.utcOffset 1700000000).natAbs < 360000) ∧
    ((normalizeTimestamp istZone 1700000000).1.offset = istZone.utcOffset 1700000000 ∧
     parseOffset (normalizeTimestamp istZone 1700000000).2 = istZone.utcOffset 1700000000 ∧
     utcOfLocal (normalizeTimestamp istZone 1700000000).1 = 1700000000) :=
  ⟨⟨by decide, by decide⟩, normalizer_roundtrip istZone 1700000000 (by decide) (by decide)⟩

/-! Lemmas about the forecast bucketizer. -/

/-- Unfolding of one step of the grouping loop. -/
theorem bucketLoop_cons (z : TZ) (item : ForecastSample) (rest : List ForecastSample)
    (acc : List (Int × ForecastSample)) :
    bucketLoop z (item :: rest) acc =
      if (acc.map Prod.fst).contains (sampleDate z item) then bucketLoop z rest acc
      else if 5 ≤ (acc ++ [(sampleDate z item, item)]).length then acc ++ [(sampleDate z item, item)]
      else bucketLoop z rest (acc ++ [(sampleDate z item, item)]) := rfl

/-- The loop preserves distinctness of the date keys. -/
theorem bucketLoop_keys_nodup (z : TZ) : ∀ (items : List ForecastSample)
    (acc : List (Int × ForecastSample)),
    (acc.map Prod.fst).Nodup → ((bucketLoop z items acc).map Prod.fst).Nodup
  | [], _, h => h
  | item :: rest, acc, h => by
    rw [bucketLoop_cons]
    by_cases hc : (acc.map Prod.fst).contains (sampleDate z item)
    · rw [if_pos hc]
      exact bucketLoop_keys_nodup z rest acc h
    · rw [if_neg hc]
      have hnmem : sampleDate z item ∉ acc.map Prod.fst := by
        simpa using hc
      have h2 : ((acc ++ [(sampleDate z item, item)]).map Prod.fst).Nodup := by
        simp only [List.map_append, List.map_cons, List.map_nil]
        simp [List.nodup_append, h, hnmem]
      by_cases hl : 5 ≤ (acc ++ [(sampleDate z item, item)]).length
      · rw [if_pos hl]
        exact h2
      · rw [if_neg hl]
        exact bucketLoop_keys_nodup z rest _ h2

/-- The loop produces exactly `min 5 d` buckets, `d` being the number of
distinct local dates it can still see. -/
theorem bucketLoop_length (z : TZ) : ∀ (items : List ForecastSample)
    (acc : List (Int × ForecastSample)),
    acc.length < 5 → (acc.map Prod.fst).Nodup →
    (bucketLoop z items acc).length =
      min 5 ((acc.map Prod.fst).toFinset ∪ (items.map (sampleDate z)).toFinset).card
  | [], acc, hlt, hnd => by
    simp only [bucketLoop, List.map_nil, List.toFinset_nil, Finset.union_empty]
    rw [List.toFinset_card_of_nodup hnd, List.length_map]
    omega
  | item :: rest, acc, hlt, hnd => by
    rw [bucketLoop_cons]
    by_cases hc : (acc.map Prod.fst).contains (sampleDate z item)
    · rw [if_pos hc]
      have hmem : sampleDate z item ∈ acc.map Prod.fst := by simpa using hc
      rw [bucketLoop_length z rest acc hlt hnd]
      congr 1
      rw [List.map_cons, List.toFinset_cons, Finset.union_insert,
        Finset.insert_eq_self.mpr (Finset.mem_union_left _ (List.mem_toFinset.mpr hmem))]
    · rw [if_neg hc]
      have hnmem : sampleDate z item ∉ acc.map Prod.fst := by simpa using hc
      have hkeys : (acc ++ [(sampleDate z item, item)]).map Prod.fst
          = acc.map Prod.fst ++ [sampleDate z item] := by
        simp
      have hnd2 : ((acc ++ [(sampleDate z item, item)]).map Prod.fst).Nodup := by
        rw [hkeys]
        simp [List.nodup_append, hnd, hnmem]
      have hcard : 5 ≤ ((acc.map Prod.fst).toFinset ∪ ((item :: rest).map (sampleDate z)).toFinset).card →
          min 5 ((acc.map Prod.fst).toFinset ∪ ((item :: rest).map (sampleDate z)).toFinset).card = 5 :=
        fun h => Nat.min_eq_left h
      by_cases hl : 5 ≤ (acc ++ [(sampleDate z item, item)]).length
      · rw [if_pos hl]
        have hlapp : (acc ++ [(sampleDate z item, item)]).length = acc.length + 1 := by simp
        have h5 : acc.length = 4 := by omega
        have hsub : insert (sampleDate z item) (acc.map Prod.fst).toFinset ⊆
            (acc.map Prod.fst).toFinset ∪ ((item :: rest).map (sampleDate z)).toFinset := by
          intro x hx
          rcases Finset.mem_insert.mp hx with h1 | h1
          · subst h1
            exact Finset.mem_union_right _ (by simp [List.mem_toFinset])
          · exact Finset.mem_union_left _ h1
        have hge : 5 ≤ ((acc.map Prod.fst).toFinset ∪ ((item :: rest).map (sampleDate z)).toFinset).card := by
          have hci : (insert (sampleDate z item) (acc.map Prod.fst).toFinset).card
              = (acc.map Prod.fst).toFinset.card + 1 :=
            Finset.card_insert_of_not_mem (fun hmm => hnmem (List.mem_toFinset.mp hmm))
          have hc4 : (acc.map Prod.fst).toFinset.card = 4 := by
            rw [List.toFinset_card_of_nodup hnd, List.length_map, h5]
          have := Finset.card_le_card hsub
          omega
        rw [hcard hge]
        simp [h5]
      · rw [if_neg hl]
        have hlen2 : (acc ++ [(sampleDate z item, item)]).length < 5 := by omega
        rw [bucketLoop_length z rest _ hlen2 hnd2]
        congr 1
        congr 1
        rw [hkeys, List.toFinset_append, List.map_cons, List.toFinset_cons]
        ext x
        simp only [Finset.mem_union, Finset.mem_insert, List.toFinset_cons, List.toFinset_nil,
          Finset.mem_singleton, Finset.not_mem_empty, or_false, List.mem_toFinset]
        tauto

/-- The loop never drops a bucket already in the accumulator. -/
theorem bucketLoop_mem_of_mem_acc (z : TZ) : ∀ (items : List ForecastSample)
    (acc : List (Int × ForecastSample)) (p : Int × ForecastSample),
    p ∈ acc → p ∈ bucketLoop z items acc
  | [], _, _, h => h
  | item :: rest, acc, p, h => by
    rw [bucketLoop_cons]
    by_cases hc : (acc.map Prod.fst).contains (sampleDate z item)
    · rw [if_pos hc]
      exact bucketLoop_mem_of_mem_acc z rest acc p h
    · rw [if_neg hc]
      have h2 : p ∈ acc ++ [(sampleDate z item, item)] := List.mem_append_left _ h
      by_cases hl : 5 ≤ (acc ++ [(sampleDate z item, item)]).length
      · rw [if_pos hl]
        exact h2
      · rw [if_neg hl]
        exact bucketLoop_mem_of_mem_acc z rest _ p h2

/-- Reduction of `find?` over the date predicate. -/
theorem find?_date_cons (z : TZ) (d : Int) (a : ForecastSample) (l : List ForecastSample) :
    List.find? (fun s => sampleDate z s == d) (a :: l) =
      if sampleDate z a = d then some a
      else List.find? (fun s => sampleDate z s == d) l := by
  by_cases hq : sampleDate z a = d
  · rw [if_pos hq]
    exact List.find?_cons_of_pos _ (by simp [hq])
  · rw [if_neg hq]
    exact List.find?_cons_of_neg _ (by simp [hq])

/-- A bucket added by the loop holds the first processed sample of its
date. -/
theorem bucketLoop_mem (z : TZ) : ∀ (items : List ForecastSample)
    (acc : List (Int × ForecastSample)) (p : Int × ForecastSample),
    p ∈ bucketLoop z items acc →
    p ∈ acc ∨ (p.1 ∉ acc.map Prod.fst ∧
      items.find? (fun s => sampleDate z s == p.1) = some p.2)
  | [], _, _, h => Or.inl h
  | item :: rest, acc, p, h => by
    rw [bucketLoop_cons] at h
    by_cases hc : (acc.map Prod.fst).contains (sampleDate z item)
    · rw [if_pos hc] at h
      have hmem : sampleDate z item ∈ acc.map Prod.fst := by simpa using hc
      rcases bucketLoop_mem z rest acc p h with h1 | ⟨h1, h2⟩
      · exact Or.inl h1
      · refine Or.inr ⟨h1, ?_⟩
        have hne : ¬ sampleDate z item = p.1 := fun he => h1 (he ▸ hmem)
        rw [find?_date_cons, if_neg hne]
        exact h2
    · rw [if_neg hc] at h
      have hnmem : sampleDate z item ∉ acc.map Prod.fst := by simpa using hc
      have hstep : p ∈ acc ++ [(sampleDate z item, item)] →
          p ∈ acc ∨ (p.1 ∉ acc.map Prod.fst ∧
            (item :: rest).find? (fun s => sampleDate z s == p.1) = some p.2) := by
        intro hp
        rcases List.mem_append.mp hp with h1 | h1
        · exact Or.inl h1
        · have hpd : p = (sampleDate z item, item) := by simpa using h1
          subst hpd
          refine Or.inr ⟨hnmem, ?_⟩
          rw [find?_date_cons, if_pos rfl]
      by_cases hl : 5 ≤ (acc ++ [(sampleDate z item, item)]).length
      · rw [if_pos hl] at h
        exact hstep h
      · rw [if_neg hl] at h
        rcases bucketLoop_mem z rest _ p h with h1 | ⟨h1, h2⟩
        · exact hstep h1
        · have hkeys : (acc ++ [(sampleDate z item, item)]).map Prod.fst
              = acc.map Prod.fst ++ [sampleDate z item] := by simp
          rw [hkeys] at h1
          have h1a : p.1 ∉ acc.map Prod.fst := fun hx => h1 (List.mem_append_left _ hx)
          have h1b : p.1 ≠ sampleDate z item := fun hx => h1 (by simp [hx])
          refine Or.inr ⟨h1a, ?_⟩
          have hne : ¬ sampleDate z item = p.1 := fun he => h1b he.symm
          rw [find?_date_cons, if_neg hne]
          exact h2

/-- Every bucket of `bucketize` is keyed by the local date of its sample
and holds the first input sample of that date. -/
theorem bucketize_mem (z : TZ) (samples : List ForecastSample) (p : Int × ForecastSample)
    (hp : p ∈ bucketize z samples) :
    sampleDate z p.2 = p.1 ∧
      samples.find? (fun s => sampleDate z s == p.1) = some p.2 := by
  have hL : p ∈ bucketLoop z samples [] :=
    (List.perm_insertionSort keyLE _).mem_iff.mp hp
  rcases bucketLoop_mem z samples [] p hL with h1 | ⟨_, h2⟩
  · simp at h1
  · refine ⟨?_, h2⟩
    have := List.find?_some h2
    simpa using this

/-- The bucket dates of `bucketize` are distinct. -/
theorem bucketize_keys_nodup (z : TZ) (samples : List ForecastSample) :
    ((bucketize z samples).map Prod.fst).Nodup := by
  have hperm : List.Perm ((bucketize z samples).map Prod.fst)
      ((bucketLoop z samples []).map Prod.fst) :=
    (List.perm_insertionSort keyLE _).map Prod.fst
  exact hperm.nodup_iff.mpr (bucketLoop_keys_nodup z samples [] (by simp))

/-- `bucketize` returns `min 5 d` buckets, `d` being the number of
distinct local dates in the input. -/
theorem bucketize_length (z : TZ) (samples : List ForecastSample) :
    (bucketize z samples).length = min 5 ((samples.map (sampleDate z)).toFinset.card) := by
  have hlen : (bucketize z samples).length = (bucketLoop z samples []).length :=
    (List.perm_insertionSort keyLE _).length_eq
  rw [hlen, bucketLoop_length z samples [] (by simp) (by simp)]
  simp

/-- Replaying an already-deduplicated bucket list through the loop
reproduces it. -/
theorem bucketLoop_of_consistent (z : TZ) : ∀ (l acc : List (Int × ForecastSample)),
    (∀ p ∈ l, sampleDate z p.2 = p.1) → ((acc ++ l).map Prod.fst).Nodup →
    (acc ++ l).length ≤ 5 → bucketLoop z (l.map Prod.snd) acc = acc ++ l
  | [], acc, _, _, _ => by simp [bucketLoop]
  | (d, s) :: t, acc, hcons, hnd, hlen => by
    have hds : sampleDate z s = d := hcons (d, s) (by simp)
    have hkeys : (acc ++ (d, s) :: t).map Prod.fst
        = acc.map Prod.fst ++ d :: t.map Prod.fst := by simp
    have hdn : d ∉ acc.map Prod.fst := by
      rw [hkeys, List.nodup_append] at hnd
      exact fun hx => hnd.2.2 hx (by simp)
    rw [List.map_cons, bucketLoop_cons, hds]
    rw [if_neg (by simpa using hdn)]
    by_cases hl : 5 ≤ (acc ++ [(d, s)]).length
    · rw [if_pos hl]
      have ht : t = [] := by
        have h1 : (acc ++ (d, s) :: t).length = acc.length + t.length + 1 := by
          simp
          omega
        have h2 : (acc ++ [(d, s)]).length = acc.length + 1 := by simp
        have := List.length_eq_zero.mp (show t.length = 0 by omega)
        exact this
      subst ht
      simp
    · rw [if_neg hl]
      have hconst : ∀ p ∈ t, sampleDate z p.2 = p.1 :=
        fun p hp => hcons p (by simp [hp])
      have hnd2 : (((acc ++ [(d, s)]) ++ t).map Prod.fst).Nodup := by
        rw [List.append_assoc, List.singleton_append]
        exact hnd
      have hlen2 : ((acc ++ [(d, s)]) ++ t).length ≤ 5 := by
        rw [List.append_assoc, List.singleton_append]
        exact hlen
      rw [bucketLoop_of_consistent z t (acc ++ [(d, s)]) hconst hnd2 hlen2]
      rw [List.append_assoc, List.singleton_append]

/-- A concrete forecast sample carrying a timestamp; the payload values
are arbitrary and shared. -/
def mkSample (t : Int) : ForecastSample := ⟨t, 20, 19, "clear sky", 50, 1013⟩

/-- Samples (in UTC) whose local dates follow the pattern of the worked
example in the specification: Mon, Mon, Tue, Wed, Wed, Thu, Fri. -/
def exampleSamples : List ForecastSample :=
  [mkSample 0, mkSample 3600, mkSample 86400, mkSample 172800, mkSample 176400,
   mkSample 259200, mkSample 345600]

/-- C4: for every input sample sequence, the forecast bucketizer returns
at most five buckets (five is the day count the code requests; it is
hard-coded, not a caller parameter), no two returned buckets share a
local calendar date in the configured zone, and the number of buckets is
exactly the minimum of five and the number of distinct local dates in
the input, so fewer distinct dates give exactly that many buckets with
no padding and no error. -/
theorem bucketizer_at_most_five_distinct_dates (z : TZ) (samples : List ForecastSample) :
    (bucketize z samples).length ≤ 5 ∧
    ((bucketize z samples).map Prod.fst).Nodup ∧
    (bucketize z samples).length = min 5 ((samples.map (sampleDate z)).toFinset.card) :=
  ⟨by rw [bucketize_length]; exact Nat.min_le_left _ _,
   bucketize_keys_nodup z samples, bucketize_length z samples⟩

/-- C5 counterexample: on samples whose local dates are Mon, Mon, Tue,
Wed, Wed, Thu, Fri, the bucketizer does not return the three buckets the
claimed `days = 3` example describes: the day count is hard-coded to
five, so it returns five buckets, Mon to Fri (each holding the first
sample of its date). -/
theorem bucketizer_example_returns_five_buckets_cex :
    (bucketize utcZone exampleSamples).map Prod.fst = [0, 1, 2, 3, 4] ∧
    (bucketize utcZone exampleSamples).length ≠ 3 ∧
    (bucketize utcZone exampleSamples).map Prod.snd =
      [mkSample 0, mkSample 86400, mkSample 172800, mkSample 259200, mkSample 345600] := by
  decide

/-- C5 (amended): every bucket the bucketizer returns is keyed by the
local date of the sample it holds, and that sample is the first sample
in input order whose local date equals the bucket date — later samples
of the same date are discarded.  (The worked example of the claim is
amended by the counterexample: with the hard-coded five-day cap it
yields five buckets, not three.) -/
theorem bucketizer_first_seen_wins (z : TZ) (samples : List ForecastSample)
    (p : Int × ForecastSample) (hp : p ∈ bucketize z samples) :
    sampleDate z p.2 = p.1 ∧
      samples.find? (fun s => sampleDate z s == p.1) = some p.2 :=
  bucketize_mem z samples p hp

/-- Witness for `bucketizer_first_seen_wins`: the Monday bucket of the
example list holds the first of the two Monday samples. -/
theorem bucketizer_first_seen_wins_witness :
    (0, mkSample 0) ∈ bucketize utcZone exampleSamples ∧
    (sampleDate utcZone (0, mkSample 0).2 = (0, mkSample 0).1 ∧
      exampleSamples.find? (fun s => sampleDate utcZone s == (0, mkSample 0).1)
        = some (0, mkSample 0).2) :=
  ⟨by decide, bucketizer_first_seen_wins utcZone exampleSamples (0, mkSample 0) (by decide)⟩

/-- C2 counterexample: the code has no tomorrow-only mode — the day
count is hard-coded to five and the loop never consults the current
date.  At an instant `now = 3600` (so today is 1970-01-01 in UTC), a
sample dated today produces a bucket dated today, contradicting the
claim that no returned bucket is dated today. -/
theorem bucketizer_returns_today_dated_bucket_cex :
    localDate utcZone 3600 = localDate utcZone (mkSample 0).dt ∧
    (bucketize utcZone [mkSample 0]).map Prod.fst = [localDate utcZone 3600] := by
  decide

/-- C2 (amended): the bucketizer takes no day-count parameter and never
skips samples by their date: the local date of the first input sample —
today included — always appears among the returned bucket dates. -/
theorem bucketizer_never_skips_first_sample_date (z : TZ) (s : ForecastSample)
    (rest : List ForecastSample) :
    sampleDate z s ∈ (bucketize z (s :: rest)).map Prod.fst := by
  have h0 : (sampleDate z s, s) ∈ bucketLoop z (s :: rest) [] := by
    rw [bucketLoop_cons]
    rw [if_neg (by simp)]
    rw [if_neg (by simp)]
    exact bucketLoop_mem_of_mem_acc z rest _ _ (by simp)
  have h1 : (sampleDate z s, s) ∈ bucketize z (s :: rest) :=
    (List.perm_insertionSort keyLE _).mem_iff.mpr h0
  exact List.mem_map_of_mem Prod.fst h1

/-- C9: the bucketizer is idempotent on its own output: replaying the
samples of the returned buckets (one per distinct local date, already
sorted) returns the same buckets.  The hard-coded day count five is
always at least the bucket count. -/
theorem bucketizer_idempotent (z : TZ) (samples : List ForecastSample) :
    bucketize z ((bucketize z samples).map Prod.snd) = bucketize z samples := by
  have hcons : ∀ p ∈ bucketize z samples, sampleDate z p.2 = p.1 :=
    fun p hp => (bucketize_mem z samples p hp).1
  have hnd : ((bucketize z samples).map Prod.fst).Nodup := bucketize_keys_nodup z samples
  have hlen : (bucketize z samples).length ≤ 5 := by
    rw [bucketize_length]
    exact Nat.min_le_left _ _
  have hrec := bucketLoop_of_consistent z (bucketize z samples) [] hcons
    (by simpa using hnd) (by simpa using hlen)
  show List.insertionSort keyLE (bucketLoop z ((bucketize z samples).map Prod.snd) [])
      = bucketize z samples
  rw [hrec, List.nil_append]
  exact List.Sorted.insertionSort_eq (List.sorted_insertionSort keyLE _)

/-! Lemmas about the string helpers, for the credential fallback. -/

/-- Stripping never lengthens a string. -/
theorem pyStrip_length_le (s : String) : (pyStrip s).length ≤ s.length := by
  show (((s.toList.dropWhile Char.isWhitespace).reverse.dropWhile Char.isWhitespace).reverse).length
      ≤ s.toList.length
  rw [List.length_reverse]
  have h1 : ((s.toList.dropWhile Char.isWhitespace).reverse.dropWhile Char.isWhitespace).length
      ≤ (s.toList.dropWhile Char.isWhitespace).reverse.length :=
    (List.dropWhile_sublist Char.isWhitespace).length_le
  have h2 : (s.toList.dropWhile Char.isWhitespace).length ≤ s.toList.length :=
    (List.dropWhile_sublist Char.isWhitespace).length_le
  rw [List.length_reverse] at h1
  omega

/-- A substring found by `listContainsSub` is no longer than the string
searched. -/
theorem listContainsSub_length (hay needle : List Char)
    (h : listContainsSub hay needle = true) : needle.length ≤ hay.length := by
  induction hay with
  | nil =>
    unfold listContainsSub at h
    by_cases hp : needle.isPrefixOf ([] : List Char)
    · exact (List.isPrefixOf_iff_prefix.mp hp).length_le
    · rw [if_neg hp] at h
      simp at h
  | cons c t ih =>
    unfold listContainsSub at h
    by_cases hp : needle.isPrefixOf (c :: t)
    · exact (List.isPrefixOf_iff_prefix.mp hp).length_le
    · rw [if_neg hp] at h
      exact le_trans (ih h) (by simp)

/-- A string shorter than the needle cannot contain it. -/
theorem not_containsSub_of_short (hay needle : String) (h : hay.length < needle.length) :
    containsSub hay needle = false := by
  cases hc : containsSub hay needle
  · rfl
  · have hle := listContainsSub_length hay.toList needle.toList hc
    have e1 : hay.toList.length = hay.length := rfl
    have e2 : needle.toList.length = needle.length := rfl
    exact absurd hle (by omega)

/-- C10: whenever the configured `OPENWEATHER_API_KEY` is unset or strips
to fewer than 20 characters, both tool functions silently substitute the
hardcoded key and build their request parameters with it, so a missing
or malformed credential never leaves a request without a key (the
substituted key has 32 characters). -/
theorem api_key_hardcoded_fallback (raw : Option String) (city : String)
    (h : credentialWeak raw = true) :
    effectiveApiKey (moduleApiKey raw) = fallbackApiKey ∧
    currentWeatherParams (moduleApiKey raw) city
      = [("q", city), ("appid", fallbackApiKey), ("units", "metric")] ∧
    forecastParams (moduleApiKey raw) city
      = [("q", city), ("appid", fallbackApiKey), ("units", "metric")] ∧
    20 ≤ (effectiveApiKey (moduleApiKey raw)).length := by
  have hkey : effectiveApiKey (moduleApiKey raw) = fallbackApiKey := by
    cases raw with
    | none => decide
    | some s =>
      have hlen : (pyStrip s).length < 20 := by
        have := of_decide_eq_true h
        exact this
      have hc : containsSub (pyStrip s) "OPENWEATHER_API_KEY=" = false := by
        apply not_containsSub_of_short
        have hle := pyStrip_length_le s
        have : ("OPENWEATHER_API_KEY=" : String).length = 20 := by decide
        omega
      have hmod : moduleApiKey (some s) = some (pyStrip s) := by
        show (if containsSub (pyStrip s) "OPENWEATHER_API_KEY=" = true
              then some (pyStrip (afterFirst "=" (pyStrip s))) else some (pyStrip s))
            = some (pyStrip s)
        rw [hc]
        simp
      rw [hmod]
      have hlt : (pyStrip (pyStrip s)).length < 20 :=
        lt_of_le_of_lt (pyStrip_length_le (pyStrip s)) hlen
      show pyStrip (if pyStrip s = "" ∨ (pyStrip (pyStrip s)).length < 20
                    then fallbackApiKey else pyStrip s) = fallbackApiKey
      rw [if_pos (Or.inr hlt)]
      decide
  refine ⟨hkey, ?_, ?_, ?_⟩
  · unfold currentWeatherParams
    rw [hkey]
  · unfold forecastParams
    rw [hkey]
  · rw [hkey]
    decide

/-- Witness for `api_key_hardcoded_fallback` with the variable unset. -/
theorem api_key_hardcoded_fallback_witness :
    credentialWeak none = true ∧
    (effectiveApiKey (moduleApiKey none) = fallbackApiKey ∧
     currentWeatherParams (moduleApiKey none) "Paris"
       = [("q", "Paris"), ("appid", fallbackApiKey), ("units", "metric")] ∧
     forecastParams (moduleApiKey none) "Paris"
       = [("q", "Paris"), ("appid", fallbackApiKey), ("units", "metric")] ∧
     20 ≤ (effectiveApiKey (moduleApiKey none)).length) :=
  ⟨by decide, api_key_hardcoded_fallback none "Paris" (by decide)⟩

/-- C3: when the outbound call is unreachable or comes back with an
error status (4xx or 5xx, the statuses `raise_for_status` turns into the
`requests.RequestException` the code catches), both tool functions
return a structured failure — `success = false`, an error string, and
the human-readable fallback message — instead of raising, and the
dispatch endpoint returns it as a normal body with HTTP 200. -/
theorem upstream_failure_structured_200 (z : TZ) (now : Int) (city : String)
    (fc : FetchOutcome OWMCurrent) (ff : FetchOutcome OWMForecast)
    (hc : isRequestFailure fc = true) (hf : isRequestFailure ff = true) :
    (getCurrentWeather z city fc).success = false ∧
    (getCurrentWeather z city fc).error.isSome = true ∧
    (getCurrentWeather z city fc).formatted_response
      = "Sorry, I couldn\x27t get weather data for " ++ city
        ++ ". Please check the city name and try again." ∧
    (getWeatherForecast z now city ff).success = false ∧
    (getWeatherForecast z now city ff).error.isSome = true ∧
    (getWeatherForecast z now city ff).formatted_response
      = "Sorry, I couldn\x27t get forecast data for " ++ city ++ "." ∧
    executeTool z now "get_weather" [("city", city)] fc ff
      = .ok 200 (getCurrentWeather z city fc) ∧
    executeTool z now "get_forecast" [("city", city)] fc ff
      = .ok 200 (getWeatherForecast z now city ff) := by
  have hcur : getCurrentWeather z city fc = currentFailure city
      (match fc with
       | .connError msg => msg
       | .response s _ => httpErrorMsg s) := by
    cases fc with
    | connError msg => rfl
    | response s body =>
      have hs : 400 ≤ s ∧ s < 600 := of_decide_eq_true hc
      show (if 400 ≤ s ∧ s < 600 then currentFailure city (httpErrorMsg s) else _)
          = currentFailure city (httpErrorMsg s)
      rw [if_pos hs]
  have hfc : getWeatherForecast z now city ff = forecastFailure city
      (match ff with
       | .connError msg => msg
       | .response s _ => httpErrorMsg s) := by
    cases ff with
    | connError msg => rfl
    | response s body =>
      have hs : 400 ≤ s ∧ s < 600 := of_decide_eq_true hf
      show (if 400 ≤ s ∧ s < 600 then forecastFailure city (httpErrorMsg s) else _)
          = forecastFailure city (httpErrorMsg s)
      rw [if_pos hs]
  refine ⟨?_, ?_, ?_, ?_, ?_, ?_, rfl, rfl⟩
  all_goals first
  | (rw [hcur]; rfl)
  | (rw [hfc]; rfl)

/-- Witness for `upstream_failure_structured_200` with an unreachable
upstream. -/
theorem upstream_failure_structured_200_witness :
    (isRequestFailure (FetchOutcome.connError "refused" : FetchOutcome OWMCurrent) = true ∧
     isRequestFailure (FetchOutcome.connError "refused" : FetchOutcome OWMForecast) = true) ∧
    ((getCurrentWeather utcZone "Paris" (.connError "refused")).success = false ∧
     (getCurrentWeather utcZone "Paris" (.connError "refused")).error.isSome = true ∧
     (getCurrentWeather utcZone "Paris" (.connError "refused")).formatted_response
       = "Sorry, I couldn\x27t get weather data for " ++ "Paris"
         ++ ". Please check the city name and try again." ∧
     (getWeatherForecast utcZone 0 "Paris" (.connError "refused")).success = false ∧
     (getWeatherForecast utcZone 0 "Paris" (.connError "refused")).error.isSome = true ∧
     (getWeatherForecast utcZone 0 "Paris" (.connError "refused")).formatted_response
       = "Sorry, I couldn\x27t get forecast data for " ++ "Paris" ++ "." ∧
     executeTool utcZone 0 "get_weather" [("city", "Paris")] (.connError "refused")
         (.connError "refused")
       = .ok 200 (getCurrentWeather utcZone "Paris" (.connError "refused")) ∧
     executeTool utcZone 0 "get_forecast" [("city", "Paris")] (.connError "refused")
         (.connError "refused")
       = .ok 200 (getWeatherForecast utcZone 0 "Paris" (.connError "refused"))) :=
  ⟨⟨by decide, by decide⟩,
   upstream_failure_structured_200 utcZone 0 "Paris" (.connError "refused") (.connError "refused")
     (by decide) (by decide)⟩

/-- C1: contrary to the claim, the dispatch endpoint never surfaces
HTTP 400.  The `HTTPException(400)` raised for an unknown tool is itself
an `Exception`, so the blanket `except Exception` intercepts it and
re-raises it as a 500; a request missing the required `city` parameter
raises `KeyError`, likewise surfaced as a 500.  This theorem evaluates
the endpoint at the failing inputs. -/
theorem execute_tool_error_paths_surface_500 :
    executeTool utcZone 0 "get_time" [] (.connError "down") (.connError "down")
      = .httpError 500 "400: Unknown tool: get_time" ∧
    executeTool utcZone 0 "get_weather" [] (.connError "down") (.connError "down")
      = .httpError 500 "\x27city\x27" ∧
    executeTool utcZone 0 "get_forecast" [] (.connError "down") (.connError "down")
      = .httpError 500 "\x27city\x27" :=
  ⟨rfl, rfl, rfl⟩

/-- C7: city extraction returns `Paris` for the first example query, and
the bare word `weather` matches no pattern and no fallback, yielding the
no-result value (Python `None`, the "not found" outcome of the
specification). -/
theorem extract_city_examples :
    extract_city_from_message "what\x27s the weather like in Paris?" = some "Paris" ∧
    extract_city_from_message "weather" = none := by
  decide

/-- Zone database for the C8 witness: only UTC resolves. -/
def demoZoneDb (tname : String) : Option TZ :=
  if tname = "UTC" then some utcZone else none

/-- C8: for any zone database that resolves `UTC` (as `pytz` always
does), an invalid configured zone name makes `validate_timezone` answer
`UTC`, and the zone the server process then binds always resolves, so
timestamp conversion (the total function `toLocalTime`) is available for
every timestamp once startup completes. -/
theorem timezone_invalid_falls_back_to_utc (db : String → Option TZ) (envTZ : Option String)
    (hUTC : (db "UTC").isSome = true)
    (hclean : ∀ n, (db n).isSome = true → pyStrip n = n) :
    (∀ tname, envTZ = some tname → db tname = none → validate_timezone db envTZ = "UTC") ∧
    (serverStartup db envTZ).isSome = true := by
  have hstrip : pyStrip "UTC" = "UTC" := by decide
  constructor
  · intro tname he hn
    subst he
    show (if tname = "" then "UTC" else if (db tname).isSome = true then tname else "UTC") = "UTC"
    by_cases h0 : tname = ""
    · rw [if_pos h0]
    · rw [if_neg h0, if_neg (by simp [hn])]
  · cases envTZ with
    | none =>
      show (db (pyStrip "UTC")).isSome = true
      rw [hstrip]
      exact hUTC
    | some tname =>
      show (db (pyStrip (if tname = "" then "UTC"
          else if (db tname).isSome = true then tname else "UTC"))).isSome = true
      by_cases h0 : tname = ""
      · rw [if_pos h0, hstrip]
        exact hUTC
      · rw [if_neg h0]
        by_cases h1 : (db tname).isSome = true
        · rw [if_pos h1, hclean tname h1]
          exact h1
        · rw [if_neg h1, hstrip]
          exact hUTC

/-- Witness for `timezone_invalid_falls_back_to_utc` at a database
resolving only UTC and an invalid configured name. -/
theorem timezone_invalid_falls_back_to_utc_witness :
    (demoZoneDb "UTC").isSome = true ∧
    (validate_timezone demoZoneDb (some "Not/AZone") = "UTC" ∧
     (serverStartup demoZoneDb (some "Not/AZone")).isSome = true) := by
  have hclean : ∀ n, (demoZoneDb n).isSome = true → pyStrip n = n := by
    intro n hsome
    unfold demoZoneDb at hsome
    by_cases hn : n = "UTC"
    · subst hn
      decide
    · rw [if_neg hn] at hsome
      simp at hsome
  have h := timezone_invalid_falls_back_to_utc demoZoneDb (some "Not/AZone") (by decide) hclean
  exact ⟨by decide, h.1 "Not/AZone" rfl rfl, h.2⟩

end WeatherBot
